import Mathlib

/-!
# Verification of the ShopSmart sales dashboard (`app.py`)

Shallow embedding of the validation-and-aggregation pipeline of the
Streamlit dashboard in `app.py`:

* a transaction table is a list of records whose fields are `Option`-valued,
  mirroring a pandas `DataFrame` in which any cell may be null (`NaN`/`NaT`);
* `load_data` is modelled from the point where `pd.read_csv` has produced the
  frame: the input is the parsed header (`columns`) together with the parsed
  rows, and a missing file is the `none` input;
* monetary amounts are modelled as exact rationals (`ℚ`), dates as abstract
  day ordinals (`ℕ`);
* pandas semantics that the source relies on are reproduced explicitly:
  `.sum()` and `.nunique()` skip nulls, `groupby` sorts its keys ascending and
  drops null keys, `NaN <= 0` and `NaN < 1` are false, and `isin` is false on
  null.
-/

/-- One row of the transaction table.  Every field is `Option`-valued because
a parsed CSV cell may be missing; `load_data` only rules nulls out where it
checks for them. -/
structure SalesRecord where
  date : Option Nat
  order_id : Option String
  product : Option String
  category : Option String
  region : Option String
  quantity : Option Int
  unit_price : Option ℚ
  total_amount : Option ℚ
deriving DecidableEq, Repr

/-- The result of `pd.read_csv`: the header row plus the parsed records. -/
structure RawFile where
  columns : List String
  rows : List SalesRecord
deriving DecidableEq, Repr

/-- The list `required_columns` from `load_data` (app.py lines 65–66). -/
def required_columns : List String :=
  ["date", "order_id", "product", "category", "region",
   "quantity", "unit_price", "total_amount"]

/-- The set `valid_categories` from `load_data` (app.py line 88). -/
def valid_categories : List String :=
  ["Electronics", "Accessories", "Audio", "Wearables", "Smart Home"]

/-- The set `valid_regions` from `load_data` (app.py line 93). -/
def valid_regions : List String :=
  ["North", "South", "East", "West"]

/-- The list `missing_cols` (app.py line 67): required columns absent from the header. -/
def missing_cols (f : RawFile) : List String :=
  required_columns.filter (fun c => !(f.columns.contains c))

/-- app.py line 68: `if missing_cols:`. -/
def viol_missing_columns (f : RawFile) : Bool :=
  !(missing_cols f).isEmpty

/-- app.py line 74: `df['total_amount'].isnull().any()`. -/
def viol_null_amount (rows : List SalesRecord) : Bool :=
  rows.any (fun r => r.total_amount.isNone)

/-- app.py line 77: `df['order_id'].isnull().any()`. -/
def viol_null_order_id (rows : List SalesRecord) : Bool :=
  rows.any (fun r => r.order_id.isNone)

/-- app.py line 81: `(df['total_amount'] <= 0).any()` — a null amount compares
false, as `NaN <= 0` does in pandas. -/
def viol_nonpos_amount (rows : List SalesRecord) : Bool :=
  rows.any (fun r =>
    match r.total_amount with
    | some a => decide (a ≤ 0)
    | none => false)

/-- app.py line 84: `(df['quantity'] < 1).any()` — a null quantity compares
false, as `NaN < 1` does in pandas. -/
def viol_quantity (rows : List SalesRecord) : Bool :=
  rows.any (fun r =>
    match r.quantity with
    | some q => decide (q < 1)
    | none => false)

/-- Pandas `df['category'].isin(valid_categories)` for one record: false on null. -/
def category_ok (r : SalesRecord) : Bool :=
  match r.category with
  | some c => valid_categories.contains c
  | none => false

/-- The series `invalid_cats` (app.py line 89): the distinct `category` cells of the rows
whose category is not in the valid set (a null cell is invalid and shows up as
`none`). -/
def invalid_cats (rows : List SalesRecord) : List (Option String) :=
  ((rows.filter (fun r => !category_ok r)).map (fun r => r.category)).dedup

/-- app.py line 90: `len(invalid_cats) > 0`. -/
def viol_category (rows : List SalesRecord) : Bool :=
  !(invalid_cats rows).isEmpty

/-- Pandas `df['region'].isin(valid_regions)` for one record: false on null. -/
def region_ok (r : SalesRecord) : Bool :=
  match r.region with
  | some c => valid_regions.contains c
  | none => false

/-- The series `invalid_regions` (app.py line 94). -/
def invalid_regions (rows : List SalesRecord) : List (Option String) :=
  ((rows.filter (fun r => !region_ok r)).map (fun r => r.region)).dedup

/-- app.py line 95: `len(invalid_regions) > 0`. -/
def viol_region (rows : List SalesRecord) : Bool :=
  !(invalid_regions rows).isEmpty

/-- The distinct failure modes of `load_data`, one per `raise` site
(app.py lines 56, 69, 75, 78, 82, 85, 91, 96). -/
inductive LoadError where
  | fileNotFound
  | missingColumns
  | nullAmount
  | nullOrderId
  | nonPositiveAmount
  | badQuantity
  | badCategory
  | badRegion
deriving DecidableEq, Repr

/-- Function `load_data` (app.py lines 53–98), from the point where the CSV has been
parsed: `none` is a missing file, `some f` the parsed frame.  The checks are
performed in the source's textual order and the first violated one raises. -/
def load_data (file : Option RawFile) : Except LoadError (List SalesRecord) :=
  match file with
  | none => .error .fileNotFound
  | some f =>
    if viol_missing_columns f then .error .missingColumns
    else if viol_null_amount f.rows then .error .nullAmount
    else if viol_null_order_id f.rows then .error .nullOrderId
    else if viol_nonpos_amount f.rows then .error .nonPositiveAmount
    else if viol_quantity f.rows then .error .badQuantity
    else if viol_category f.rows then .error .badCategory
    else if viol_region f.rows then .error .badRegion
    else .ok f.rows

/-- A table satisfies all content checks of `load_data` (the row-level part of
what a table returned by `load_data` is guaranteed to satisfy). -/
def validRows (rows : List SalesRecord) : Prop :=
  viol_null_amount rows = false ∧ viol_null_order_id rows = false ∧
  viol_nonpos_amount rows = false ∧ viol_quantity rows = false ∧
  viol_category rows = false ∧ viol_region rows = false

instance (rows : List SalesRecord) : Decidable (validRows rows) := by
  unfold validRows; infer_instance

/-- The KPI dictionary returned by `calculate_kpis`. -/
structure Kpis where
  total_sales : ℚ
  total_orders : Nat
deriving DecidableEq, Repr

/-- Function `calculate_kpis` (app.py lines 111–130): `df['total_amount'].sum()` sums
the non-null amounts; `df['order_id'].nunique()` counts the distinct non-null
order ids. -/
def calculate_kpis (df : List SalesRecord) : Kpis :=
  { total_sales := ((df.filterMap (fun r => r.total_amount)).sum),
    total_orders := ((df.filterMap (fun r => r.order_id)).dedup).length }

/-- The frame `daily_sales` (app.py line 150):
`df.groupby('date')['total_amount'].sum().reset_index()`.  `groupby` drops
rows whose key is null, sorts the distinct keys ascending, and sums the
non-null amounts within each group. -/
def daily_sales (df : List SalesRecord) : List (Nat × ℚ) :=
  (List.insertionSort (· ≤ ·) ((df.filterMap (fun r => r.date)).dedup)).map
    (fun d => (d, ((df.filter (fun r => r.date == some d)).filterMap
      (fun r => r.total_amount)).sum))

/-- The series `category_sales` before the value sort (app.py line 198):
`df.groupby('category')['total_amount'].sum()` — distinct non-null categories,
alphabetically ascending (pandas `groupby` sorts its keys), each with the sum
of the amounts of its rows. -/
def category_sums (df : List SalesRecord) : List (String × ℚ) :=
  (List.insertionSort (· ≤ ·) ((df.filterMap (fun r => r.category)).dedup)).map
    (fun c => (c, ((df.filter (fun r => r.category == some c)).filterMap
      (fun r => r.total_amount)).sum))

/-- The descending-by-value order used by
`category_sales.sort_values(ascending=False)` (app.py line 199). -/
def byDescAmount (a b : String × ℚ) : Prop := b.2 ≤ a.2

instance : DecidableRel byDescAmount := fun a b =>
  inferInstanceAs (Decidable (b.2 ≤ a.2))

instance : IsTotal (String × ℚ) byDescAmount := ⟨fun a b => le_total b.2 a.2⟩

instance : IsTrans (String × ℚ) byDescAmount :=
  ⟨fun _ _ _ hab hbc => le_trans hbc hab⟩

/-- The frame `category_sales` (app.py lines 198–199): group sums sorted descending by
value.  Ties keep a deterministic order because the whole computation is a
pure function of the table (group keys are produced alphabetically and then
stably sorted by value). -/
def category_sales (df : List SalesRecord) : List (String × ℚ) :=
  List.insertionSort byDescAmount (category_sums df)

/-- An abstract chart specification: the data handed to `plotly.express`. -/
inductive Chart where
  | line (data : List (Nat × ℚ))
  | bar (data : List (String × ℚ))
deriving DecidableEq, Repr

/-- Function `create_sales_trend_chart` (app.py lines 133–177): a line chart over the
daily sums. -/
def create_sales_trend_chart (df : List SalesRecord) : Chart :=
  .line (daily_sales df)

/-- Function `create_category_chart` (app.py lines 180–226): a bar chart over the
descending category sums. -/
def create_category_chart (df : List SalesRecord) : Chart :=
  .bar (category_sales df)

/-- The charts `main` renders (app.py lines 261 and 268): the trend chart and
the category chart — no third chart is ever constructed. -/
def mainCharts (df : List SalesRecord) : List Chart :=
  [create_sales_trend_chart df, create_category_chart df]

/-- Function `main` (app.py lines 229–268) as a pure render function: load, compute the
KPIs, build the charts; any load failure aborts the render. -/
def mainRender (file : Option RawFile) :
    Except LoadError (Kpis × List Chart) :=
  (load_data file).map (fun df => (calculate_kpis df, mainCharts df))

/-- The `st.cache_data` memoization on `load_data` (app.py line 24): the cache
is keyed by the function argument — the filepath string — only.  A hit returns
the cached table without touching the filesystem; a successful miss stores the
result; a failed load caches nothing (`st.stop` raises). -/
def cacheLookup (cache : List (String × List SalesRecord)) (p : String) :
    Option (List SalesRecord) :=
  (cache.find? (fun e => e.1 == p)).map (fun e => e.2)

/-- One memoized call `load_data(filepath)` with explicit cache state: the
filesystem `fs` maps a path to the parsed file currently on disk (or `none`).
Returns the result together with the updated cache. -/
def load_data_cached (cache : List (String × List SalesRecord))
    (fs : String → Option RawFile) (path : String) :
    Except LoadError (List SalesRecord) × List (String × List SalesRecord) :=
  match cacheLookup cache path with
  | some t => (.ok t, cache)
  | none =>
    match load_data (fs path) with
    | .ok t => (.ok t, (path, t) :: cache)
    | .error e => (.error e, cache)

/-! ## Concrete tables used as witnesses and counterexamples -/

/-- A fully populated record builder: the fields the claims do not vary are
fixed to values accepted by every check. -/
def mkRec (d : Option Nat) (oid : Option String) (cat : Option String)
    (amt : Option ℚ) : SalesRecord :=
  { date := d, order_id := oid, product := some "Widget",
    category := cat, region := some "North", quantity := some 1,
    unit_price := some 10, total_amount := amt }

/-- The worked example of the specification: two line items of order `A` on
day 1 (amounts 10 and 5) and one line item of order `B` on day 2 (amount 7). -/
def exTable : List SalesRecord :=
  [mkRec (some 1) (some "A") (some "Electronics") (some 10),
   mkRec (some 1) (some "A") (some "Audio") (some 5),
   mkRec (some 2) (some "B") (some "Electronics") (some 7)]

/-- The example table as a parsed CSV file with the full header. -/
def exFile : RawFile := { columns := required_columns, rows := exTable }

/-! ## Helper lemmas -/

/-- On a list all of whose elements are mapped to `some`, `filterMap` is the
map of the (defaulted) values. -/
theorem filterMap_eq_map_getD {α β : Type _} (f : α → Option β) (d : β) :
    ∀ l : List α, (∀ a ∈ l, (f a).isSome) →
      l.filterMap f = l.map (fun a => (f a).getD d) := by
  intro l
  induction l with
  | nil => intro _; rfl
  | cons a l ih =>
    intro h
    have ha := h a (List.mem_cons_self a l)
    obtain ⟨b, hb⟩ := Option.isSome_iff_exists.mp ha
    simp [List.filterMap_cons, hb,
      ih (fun x hx => h x (List.mem_cons_of_mem a hx))]

/-- A table passing the null-amount check has no null `total_amount`. -/
theorem isSome_amount_of_no_null (rows : List SalesRecord)
    (h : viol_null_amount rows = false) :
    ∀ r ∈ rows, (r.total_amount).isSome := by
  intro r hr
  have := List.any_eq_false.mp h r hr
  cases ho : r.total_amount <;> simp_all

/-- A table passing the null-order-id check has no null `order_id`. -/
theorem isSome_order_id_of_no_null (rows : List SalesRecord)
    (h : viol_null_order_id rows = false) :
    ∀ r ∈ rows, (r.order_id).isSome := by
  intro r hr
  have := List.any_eq_false.mp h r hr
  cases ho : r.order_id <;> simp_all

/-! ## C1 — KPI definitions -/

/-- C1: for every validated table, `calculate_kpis` returns as `total_sales`
the arithmetic sum of the `total_amount` field over all records, and as
`total_orders` the number of distinct `order_id` values (the cardinality of
the set of order ids), not the number of records. -/
theorem calculate_kpis_spec (df : List SalesRecord) (hv : validRows df) :
    (calculate_kpis df).total_sales
        = (df.map (fun r => r.total_amount.getD 0)).sum ∧
    (calculate_kpis df).total_orders
        = (df.map (fun r => r.order_id.getD "")).toFinset.card := by
  obtain ⟨hva, hvo, -, -, -, -⟩ := hv
  constructor
  · simp [calculate_kpis,
      filterMap_eq_map_getD _ 0 df (isSome_amount_of_no_null df hva)]
  · simp [calculate_kpis, List.card_toFinset,
      filterMap_eq_map_getD _ "" df (isSome_order_id_of_no_null df hvo)]

/-- Witness for C1 at the specification's worked example table. -/
theorem calculate_kpis_spec_witness :
    validRows exTable ∧
    ((calculate_kpis exTable).total_sales
        = (exTable.map (fun r => r.total_amount.getD 0)).sum ∧
     (calculate_kpis exTable).total_orders
        = (exTable.map (fun r => r.order_id.getD "")).toFinset.card) :=
  ⟨by decide, calculate_kpis_spec exTable (by decide)⟩

/-! ## C2 — validation order -/

/-- C2: `load_data` decides its result by the first violated check in the
order: file existence, missing header columns, null `total_amount`, null
`order_id`, non-positive `total_amount`, `quantity < 1`, category enum,
region enum.  Each failure mode occurs exactly when its own check fails and
every earlier check passes, so later checks never influence the outcome. -/
theorem load_data_first_violation_wins :
    load_data none = .error .fileNotFound ∧
    ∀ f : RawFile,
      (load_data (some f) = .error .missingColumns ↔
        viol_missing_columns f = true) ∧
      (load_data (some f) = .error .nullAmount ↔
        viol_missing_columns f = false ∧ viol_null_amount f.rows = true) ∧
      (load_data (some f) = .error .nullOrderId ↔
        viol_missing_columns f = false ∧ viol_null_amount f.rows = false ∧
        viol_null_order_id f.rows = true) ∧
      (load_data (some f) = .error .nonPositiveAmount ↔
        viol_missing_columns f = false ∧ viol_null_amount f.rows = false ∧
        viol_null_order_id f.rows = false ∧ viol_nonpos_amount f.rows = true) ∧
      (load_data (some f) = .error .badQuantity ↔
        viol_missing_columns f = false ∧ viol_null_amount f.rows = false ∧
        viol_null_order_id f.rows = false ∧ viol_nonpos_amount f.rows = false ∧
        viol_quantity f.rows = true) ∧
      (load_data (some f) = .error .badCategory ↔
        viol_missing_columns f = false ∧ viol_null_amount f.rows = false ∧
        viol_null_order_id f.rows = false ∧ viol_nonpos_amount f.rows = false ∧
        viol_quantity f.rows = false ∧ viol_category f.rows = true) ∧
      (load_data (some f) = .error .badRegion ↔
        viol_missing_columns f = false ∧ viol_null_amount f.rows = false ∧
        viol_null_order_id f.rows = false ∧ viol_nonpos_amount f.rows = false ∧
        viol_quantity f.rows = false ∧ viol_category f.rows = false ∧
        viol_region f.rows = true) ∧
      (load_data (some f) = .ok f.rows ↔
        viol_missing_columns f = false ∧ viol_null_amount f.rows = false ∧
        viol_null_order_id f.rows = false ∧ viol_nonpos_amount f.rows = false ∧
        viol_quantity f.rows = false ∧ viol_category f.rows = false ∧
        viol_region f.rows = false) := by
  refine ⟨rfl, fun f => ?_⟩
  cases h1 : viol_missing_columns f <;>
  cases h2 : viol_null_amount f.rows <;>
  cases h3 : viol_null_order_id f.rows <;>
  cases h4 : viol_nonpos_amount f.rows <;>
  cases h5 : viol_quantity f.rows <;>
  cases h6 : viol_category f.rows <;>
  cases h7 : viol_region f.rows <;>
  simp [load_data, h1, h2, h3, h4, h5, h6, h7]

/-! ## C3 — empty table -/

/-- C3: a file with all eight columns and zero data rows loads successfully;
on the empty table the KPIs are zero, both aggregate sequences are empty, and
every operation is total (no error value is produced anywhere). -/
theorem empty_table_behavior :
    load_data (some { columns := required_columns, rows := [] }) = .ok [] ∧
    calculate_kpis [] = { total_sales := 0, total_orders := 0 } ∧
    daily_sales [] = [] ∧
    category_sales [] = [] :=
  ⟨rfl, rfl, rfl, rfl⟩

/-! ## C4 — category aggregation is sorted -/

/-- C4: for every validated table the category aggregation is sorted
non-increasingly by group sum.  The order is deterministic throughout, ties
included: `category_sales` is a pure function that produces the group keys
alphabetically and then sorts them by value with a stable insertion sort. -/
theorem category_sales_sorted (df : List SalesRecord) (_hv : validRows df) :
    List.Sorted (fun a b : String × ℚ => b.2 ≤ a.2) (category_sales df) :=
  List.sorted_insertionSort byDescAmount (category_sums df)

/-- Witness for C4 at the specification's worked example table. -/
theorem category_sales_sorted_witness :
    validRows exTable ∧
    List.Sorted (fun a b : String × ℚ => b.2 ≤ a.2) (category_sales exTable) :=
  ⟨by decide, category_sales_sorted exTable (by decide)⟩

/-! ## C6 — totalOrders versus record count -/

/-- C6: for every valid table, `total_orders` is at most the number of
records, with equality exactly when every `order_id` value occurs in exactly
one record (each order has a single line item). -/
theorem total_orders_le_records (df : List SalesRecord) (hv : validRows df) :
    (calculate_kpis df).total_orders ≤ df.length ∧
    ((calculate_kpis df).total_orders = df.length ↔
      ∀ oid ∈ df.map (fun r => r.order_id.getD ""),
        (df.map (fun r => r.order_id.getD "")).count oid = 1) := by
  obtain ⟨-, hvo, -, -, -, -⟩ := hv
  set L := df.map (fun r => r.order_id.getD "") with hL
  have hfm : df.filterMap (fun r => r.order_id) = L :=
    filterMap_eq_map_getD _ "" df (isSome_order_id_of_no_null df hvo)
  have horders : (calculate_kpis df).total_orders = L.dedup.length := by
    simp [calculate_kpis, hfm]
  have hlen : L.length = df.length := List.length_map df _
  constructor
  · rw [horders, ← hlen]
    exact (List.dedup_sublist L).length_le
  · rw [horders, ← hlen]
    constructor
    · intro h oid hoid
      have hd : L.dedup = L := (List.dedup_sublist L).eq_of_length h
      exact List.count_eq_one_of_mem (List.dedup_eq_self.mp hd) hoid
    · intro h
      have hnd : L.Nodup := by
        rw [List.nodup_iff_count_le_one]
        intro a
        by_cases ha : a ∈ L
        · exact le_of_eq (h a ha)
        · simp [List.count_eq_zero_of_not_mem ha]
      rw [List.dedup_eq_self.mpr hnd]

/-- Witness for C6 at the specification's worked example table (three records,
two distinct orders). -/
theorem total_orders_le_records_witness :
    validRows exTable ∧
    ((calculate_kpis exTable).total_orders ≤ exTable.length ∧
     ((calculate_kpis exTable).total_orders = exTable.length ↔
       ∀ oid ∈ exTable.map (fun r => r.order_id.getD ""),
         (exTable.map (fun r => r.order_id.getD "")).count oid = 1)) :=
  ⟨by decide, total_orders_le_records exTable (by decide)⟩

/-! ## C5 — group sums versus totalSales -/

/-- A record that passes every check of `load_data` although its date is
missing: `load_data` never null-checks `date` (its own docstring says it
does), and `NaT` survives to the aggregation stage. -/
def nullDateRow : SalesRecord :=
  { date := none, order_id := some "C", product := some "Widget",
    category := some "Electronics", region := some "North",
    quantity := some 1, unit_price := some 5, total_amount := some 5 }

def nullDateFile : RawFile :=
  { columns := required_columns, rows := [nullDateRow] }


/-- C5 fails on the code: the single null-date record is accepted by
`load_data`, contributes its amount 5 to `total_sales`, and is silently
dropped by the date grouping (`groupby` discards null keys), so the
`daily_sales` sums total 0, not `total_sales`.  The category grouping still
accounts for the full amount. -/
theorem daily_sales_drops_null_date :
    load_data (some nullDateFile) = .ok [nullDateRow] ∧
    (calculate_kpis [nullDateRow]).total_sales = 5 ∧
    daily_sales [nullDateRow] = [] ∧
    ((category_sales [nullDateRow]).map Prod.snd).sum = 5 ∧
    ((daily_sales [nullDateRow]).map Prod.snd).sum
      ≠ (calculate_kpis [nullDateRow]).total_sales := by
  refine ⟨rfl, ?_, rfl, ?_, ?_⟩
  · simp [calculate_kpis, nullDateRow]
  · simp [category_sales, category_sums, nullDateRow, List.insertionSort,
      List.orderedInsert]
  · simp [daily_sales, calculate_kpis, nullDateRow]

/-! ## C7 — memoized loading and stale data -/

/-- A one-row table as first stored on disk (order `A`, amount 10). -/
def oldSalesRow : SalesRecord :=
  mkRec (some 1) (some "A") (some "Electronics") (some 10)


/-- The same file after an edit on disk: the amount changed to 20. -/
def newSalesRow : SalesRecord :=
  mkRec (some 1) (some "A") (some "Electronics") (some 20)


/-- The filesystem before the edit: every path holds the old file. -/
def fsOld : String → Option RawFile :=
  fun _ => some { columns := required_columns, rows := [oldSalesRow] }


/-- The filesystem after the edit: every path holds the new file. -/
def fsNew : String → Option RawFile :=
  fun _ => some { columns := required_columns, rows := [newSalesRow] }


/-- Counterexample to C7: after a first memoized load has populated the
cache, a second call with the same filepath against the changed filesystem
still returns the old table, while a fresh (uncached) load of the current
file content yields a different table.  The memoized load therefore does
return stale data for a changed file. -/
theorem load_data_cached_stale :
    (load_data_cached ((load_data_cached [] fsOld "sales.csv").2)
        fsNew "sales.csv").1 = .ok [oldSalesRow] ∧
    load_data (fsNew "sales.csv") = .ok [newSalesRow] ∧
    oldSalesRow ≠ newSalesRow := by
  refine ⟨rfl, rfl, ?_⟩
  decide


/-- C7 as amended: the `st.cache_data` memoization is keyed by the filepath
argument alone, so any cache hit returns the previously cached table and
never consults the filesystem — regardless of whether the underlying file
content has changed since the cached computation. -/
theorem load_data_cached_hit (cache : List (String × List SalesRecord))
    (fs : String → Option RawFile) (path : String) (t : List SalesRecord)
    (h : cacheLookup cache path = some t) :
    load_data_cached cache fs path = (.ok t, cache) := by
  unfold load_data_cached
  rw [h]


/-- Witness for the amended C7: a cache hit against a filesystem whose file
content differs from the cached table still returns the cached table. -/
theorem load_data_cached_hit_witness :
    cacheLookup [("sales.csv", [oldSalesRow])] "sales.csv"
      = some [oldSalesRow] ∧
    load_data_cached [("sales.csv", [oldSalesRow])] fsNew "sales.csv"
      = (.ok [oldSalesRow], [("sales.csv", [oldSalesRow])]) :=
  ⟨rfl, load_data_cached_hit _ fsNew _ _ rfl⟩

/-! ## C8 — what a successful render produces -/

/-- C8 fails on the code: `main` computes the two KPI metrics but constructs
and renders exactly two chart specifications (the sales trend line and the
category bars) — not the three the module docstring promises; no region chart
is ever built, and the column laid out for it stays empty. -/
theorem main_renders_two_charts :
    mainRender (some exFile)
      = .ok (calculate_kpis exTable, mainCharts exTable) ∧
    (mainCharts exTable).length = 2 ∧
    (mainCharts exTable).length ≠ 3 :=
  ⟨rfl, rfl, by decide⟩


/-! ## C9 — unit_price is never validated -/

/-- C9: none of the checks `load_data` performs reads `unit_price` (no check
definition mentions the field), so any file whose header is complete and
whose rows satisfy the row-level checks loads successfully, whatever its
`unit_price` cells contain. -/
theorem unit_price_never_validated (f : RawFile)
    (hc : viol_missing_columns f = false) (hv : validRows f.rows) :
    load_data (some f) = .ok f.rows := by
  obtain ⟨h1, h2, h3, h4, h5, h6⟩ := hv
  simp [load_data, hc, h1, h2, h3, h4, h5, h6]


/-- Rows whose `unit_price` cells are respectively missing, zero and
negative, while every field `load_data` does check is valid. -/
def badPriceRows : List SalesRecord :=
  [{ date := some 1, order_id := some "A", product := some "Widget",
     category := some "Electronics", region := some "North",
     quantity := some 1, unit_price := none, total_amount := some 10 },
   { date := some 1, order_id := some "B", product := some "Widget",
     category := some "Audio", region := some "South",
     quantity := some 2, unit_price := some 0, total_amount := some 5 },
   { date := some 2, order_id := some "C", product := some "Widget",
     category := some "Wearables", region := some "West",
     quantity := some 3, unit_price := some (-3), total_amount := some 7 }]


/-- The bad-unit-price rows as a parsed CSV file with the full header. -/
def badPriceFile : RawFile :=
  { columns := required_columns, rows := badPriceRows }


/-- Witness for C9: the file with missing, zero and negative `unit_price`
values passes every check and loads successfully. -/
theorem unit_price_never_validated_witness :
    (viol_missing_columns badPriceFile = false ∧
     validRows badPriceFile.rows) ∧
    load_data (some badPriceFile) = .ok badPriceFile.rows :=
  ⟨⟨by decide, by decide⟩,
   unit_price_never_validated badPriceFile (by decide) (by decide)⟩


/-! ## C10 — empty-string order ids -/

/-- A table in which two records carry the empty string as `order_id` and one
carries `"A"`. -/
def emptyOidRows : List SalesRecord :=
  [mkRec (some 1) (some "") (some "Electronics") (some 10),
   mkRec (some 1) (some "") (some "Audio") (some 5),
   mkRec (some 2) (some "A") (some "Electronics") (some 7)]


/-- The empty-order-id rows as a parsed CSV file with the full header. -/
def emptyOidFile : RawFile :=
  { columns := required_columns, rows := emptyOidRows }


/-- C10: the `order_id` check of `load_data` fires exactly when some record
has a null (missing) `order_id`; an empty-string id is not null, so the
concrete table loads successfully and its empty string counts as one distinct
order: two distinct ids (`""` and `"A"`) among three records. -/
theorem empty_order_id_passes :
    (∀ rows : List SalesRecord,
      viol_null_order_id rows = true ↔ ∃ r ∈ rows, r.order_id = none) ∧
    load_data (some emptyOidFile) = .ok emptyOidRows ∧
    (calculate_kpis emptyOidRows).total_orders = 2 := by
  refine ⟨?_, rfl, by decide⟩
  intro rows
  simp [viol_null_order_id, List.any_eq_true, Option.isNone_iff_eq_none]
